import Mathlib

/-
Verification of the kotorscript session-manager HTTP service
(src/session_manager.py): a FastAPI app with three GET routes
(`/health`, `/`, `/waiting`), template-or-fallback rendering for the
two HTML routes, and a listening port taken from the environment
variable SESSION_MANAGER_PORT (default 8080) bound on host 0.0.0.0.

The filesystem is modelled as a partial map from path strings to
nodes; a node is either a regular readable text file (carrying the
text that `Path.read_text()` returns) or an entry that exists but
whose text read raises (a directory, a permission-denied file, ...),
matching the distinction the code makes between `Path.exists()` and
`Path.read_text()`.
-/

namespace SessionManager

/-- Errors that a `Path.read_text()` call can raise. -/
inductive FsError where
  | isADirectory
  | permissionDenied
  | fileNotFound
deriving DecidableEq, Repr

/-- A filesystem node: either a regular readable text file with the
given contents, or an entry that exists but whose text read raises
the given error (e.g. a directory). -/
inductive FsNode where
  | file (contents : String)
  | unreadable (e : FsError)
deriving DecidableEq, Repr

/-- A filesystem state: a partial map from absolute path strings to nodes. -/
def FS : Type := String → Option FsNode

/-- `Path(p).exists()`: true exactly when some node is present at `p`. -/
def pathExists (fs : FS) (p : String) : Bool :=
  (fs p).isSome

/-- `Path(p).read_text()`: the contents of a regular file, or the raised
error for an unreadable node or an absent path. -/
def readText (fs : FS) (p : String) : Except FsError String :=
  match fs p with
  | some (.file c) => .ok c
  | some (.unreadable e) => .error e
  | none => .error .fileNotFound

/-- Content type of an HTTP response produced by the app. -/
inductive ContentType where
  | html
  | json
deriving DecidableEq, Repr

/-- An HTTP response: status code, content type, body text. -/
structure Response where
  status : Nat
  contentType : ContentType
  body : String
deriving DecidableEq, Repr

/-- Outcome of running one handler: a response, or an exception raised
out of the handler (surfacing as the framework's generic server error). -/
inductive HandlerResult where
  | response (r : Response)
  | raised (e : FsError)
deriving DecidableEq, Repr

/-- The template path checked by the `/` handler. -/
def indexTemplatePath : String := "/tmp/templates/index.html"

/-- The fallback body of the `/` handler. -/
def indexFallback : String :=
  "<html><body><h1>Session Manager</h1><p>Service is running</p></body></html>"

/-- The template path checked by the `/waiting` handler. -/
def waitingTemplatePath : String := "/tmp/templates/waiting.html"

/-- The fallback body of the `/waiting` handler. -/
def waitingFallback : String := "<html><body><h1>Waiting</h1></body></html>"

/-- Body of the `/health` response, the JSON rendering of the literal
returned by the handler. -/
def healthBody : String := "\x7b\"status\": \"healthy\"\x7d"

/-- The `/health` handler: always the fixed healthy JSON payload, 200. -/
def health : HandlerResult :=
  .response ⟨200, .json, healthBody⟩

/-- The `/` handler: if the index template path exists, read it and
return its text as HTML 200 (a read failure propagates); else return
the index fallback as HTML 200. -/
def index (fs : FS) : HandlerResult :=
  if pathExists fs indexTemplatePath then
    match readText fs indexTemplatePath with
    | .ok text => .response ⟨200, .html, text⟩
    | .error e => .raised e
  else
    .response ⟨200, .html, indexFallback⟩

/-- The `/waiting` handler: same shape as `/` against its own path and
fallback. -/
def waiting (fs : FS) : HandlerResult :=
  if pathExists fs waitingTemplatePath then
    match readText fs waitingTemplatePath with
    | .ok text => .response ⟨200, .html, text⟩
    | .error e => .raised e
  else
    .response ⟨200, .html, waitingFallback⟩

/-- The three registered routes of the app. -/
inductive Route where
  | health
  | index
  | waiting
deriving DecidableEq, Repr

/-- Exact-path route matching over the three registered paths. -/
def matchRoute (p : String) : Option Route :=
  if p = "/health" then some .health
  else if p = "/" then some .index
  else if p = "/waiting" then some .waiting
  else none

/-- Result of dispatching a GET request: a handled result from one of
the three handlers, or the framework's default not-found behavior. -/
inductive RouteResult where
  | handled (h : HandlerResult)
  | notFound
deriving DecidableEq, Repr

/-- The app: dispatch a GET on path `p` under filesystem state `fs`. -/
def app (fs : FS) (p : String) : RouteResult :=
  match matchRoute p with
  | some .health => .handled health
  | some .index => .handled (index fs)
  | some .waiting => .handled (waiting fs)
  | none => .notFound

/-- Modelled from the spec: the Template Resolver contract of spec
section 4.2 — given a path and a fallback string, check existence,
read and return the text on existence (a read failure propagating),
else return the fallback; used to state that both HTML routes are
instances of one resolver. -/
def templateResolverSpec (fs : FS) (p fallback : String) : HandlerResult :=
  if pathExists fs p then
    match readText fs p with
    | .ok text => .response ⟨200, .html, text⟩
    | .error e => .raised e
  else
    .response ⟨200, .html, fallback⟩

/-- ASCII whitespace stripped by Python `int(str)`. -/
def isPySpace (c : Char) : Bool :=
  c = ' ' || c = '\t' || c = '\n' || c = '\x0d' || c = '\x0b' || c = '\x0c'

/-- Strip leading and trailing whitespace from a character list. -/
def stripWs (cs : List Char) : List Char :=
  ((cs.dropWhile isPySpace).reverse.dropWhile isPySpace).reverse

/-- Accumulate decimal digits after at least one digit has been read,
allowing a single underscore between digits as Python `int` does. -/
def digitsAfter (acc : Nat) : List Char → Option Nat
  | [] => some acc
  | c :: cs =>
    if c.isDigit then digitsAfter (10 * acc + (c.toNat - 48)) cs
    else if c = '_' then
      match cs with
      | [] => none
      | d :: ds =>
        if d.isDigit then digitsAfter (10 * acc + (d.toNat - 48)) ds
        else none
    else none

/-- Parse a nonempty decimal digit string (with Python underscore
rules); `none` when the characters are not a valid digit run. -/
def parseDigits : List Char → Option Nat
  | [] => none
  | c :: cs =>
    if c.isDigit then digitsAfter (c.toNat - 48) cs
    else none

/-- Python `int(s)` on a string: strip whitespace, optional sign, then
a decimal digit run; `none` models the raised ValueError. -/
def pyInt (s : String) : Option Int :=
  match stripWs s.toList with
  | '+' :: rest => (parseDigits rest).map Int.ofNat
  | '-' :: rest => (parseDigits rest).map (fun n => -(Int.ofNat n))
  | cs => (parseDigits cs).map Int.ofNat

/-- The server binding produced by `uvicorn.run`: host and port. -/
structure ServerConfig where
  host : String
  port : Int
deriving DecidableEq, Repr

/-- The `__main__` startup: read SESSION_MANAGER_PORT from the
environment (default "8080"), convert with `int`, and bind uvicorn on
0.0.0.0 at that port; `none` models the ValueError raised before any
server is bound. -/
def mainStartup (env : String → Option String) : Option ServerConfig :=
  match pyInt ((env "SESSION_MANAGER_PORT").getD "8080") with
  | some p => some ⟨"0.0.0.0", p⟩
  | none => none

/-- The empty filesystem: no path exists. -/
def fsEmpty : FS := fun _ => none

/-- A filesystem with a directory at the index template path. -/
def fsIndexDir : FS := fun p =>
  if p = indexTemplatePath then some (.unreadable .isADirectory) else none

/-- A filesystem with a regular file at the index template path. -/
def fsIndexFile : FS := fun p =>
  if p = indexTemplatePath then some (.file "<h1>override</h1>") else none

/-- A filesystem with a directory at the waiting template path. -/
def fsWaitingDir : FS := fun p =>
  if p = waitingTemplatePath then some (.unreadable .isADirectory) else none

/-- A filesystem with a regular file at the waiting template path. -/
def fsWaitingFile : FS := fun p =>
  if p = waitingTemplatePath then some (.file "<p>please wait</p>") else none

/-- A filesystem with an unreadable (permission-denied) node at the
index template path. -/
def fsIndexPerm : FS := fun p =>
  if p = indexTemplatePath then some (.unreadable .permissionDenied) else none

/-- Like `fsIndexFile` but with an extra file at an unrelated path. -/
def fsIndexFileExtra : FS := fun p =>
  if p = indexTemplatePath then some (.file "<h1>override</h1>")
  else if p = "/tmp/other.txt" then some (.file "noise") else none

/-- C1 counterexample: with a directory at /tmp/templates/index.html the
path exists, yet GET / raises IsADirectoryError instead of returning a
200 response with the file text, refuting the claim as stated. -/
theorem C1_counterexample :
    pathExists fsIndexDir indexTemplatePath = true ∧
    index fsIndexDir = .raised .isADirectory := by
  decide

/-- C1 (amended): for every filesystem state in which a regular readable
text file is present at /tmp/templates/index.html, GET / returns status
200 with content-type HTML and a body equal to the exact contents of
that file, read fully as text. -/
theorem C1_index_serves_file (fs : FS) (c : String)
    (h : fs indexTemplatePath = some (.file c)) :
    index fs = .response ⟨200, .html, c⟩ := by
  simp [index, pathExists, readText, h]

/-- Witness for C1 at a concrete filesystem holding an override file. -/
theorem C1_index_serves_file_witness :
    fsIndexFile indexTemplatePath = some (.file "<h1>override</h1>") ∧
    index fsIndexFile = .response ⟨200, .html, "<h1>override</h1>"⟩ :=
  ⟨by decide, C1_index_serves_file fsIndexFile "<h1>override</h1>" (by decide)⟩

/-- C2: for every filesystem state in which /tmp/templates/index.html
does not exist, GET / returns status 200 with an HTML body exactly equal
to the index fallback string. -/
theorem C2_index_fallback (fs : FS) (h : fs indexTemplatePath = none) :
    index fs = .response ⟨200, .html, indexFallback⟩ := by
  simp [index, pathExists, h]

/-- Witness for C2 on the empty filesystem. -/
theorem C2_index_fallback_witness :
    fsEmpty indexTemplatePath = none ∧
    index fsEmpty = .response ⟨200, .html, indexFallback⟩ :=
  ⟨rfl, C2_index_fallback fsEmpty rfl⟩

/-- C3 counterexample: with a directory at /tmp/templates/waiting.html
the path exists, yet GET /waiting raises IsADirectoryError instead of
returning 200 with the file text or the fallback, refuting the claim as
stated. -/
theorem C3_counterexample :
    pathExists fsWaitingDir waitingTemplatePath = true ∧
    waiting fsWaitingDir = .raised .isADirectory := by
  decide

/-- C3 (amended): GET /waiting behaves exactly like GET / but against
its own template path and fallback — both are instances of the one
template resolver — and, if a regular readable file exists at
/tmp/templates/waiting.html, its full text contents are returned as the
HTML body with status 200, while if the path does not exist at all the
body is exactly the waiting fallback with status 200. -/
theorem C3_waiting_like_index (fs : FS) :
    waiting fs = templateResolverSpec fs waitingTemplatePath waitingFallback ∧
    index fs = templateResolverSpec fs indexTemplatePath indexFallback ∧
    (∀ c, fs waitingTemplatePath = some (.file c) →
      waiting fs = .response ⟨200, .html, c⟩) ∧
    (fs waitingTemplatePath = none →
      waiting fs = .response ⟨200, .html, waitingFallback⟩) := by
  refine ⟨rfl, rfl, ?_, ?_⟩
  · intro c h
    simp [waiting, pathExists, readText, h]
  · intro h
    simp [waiting, pathExists, h]

/-- Witness for C3 at concrete filesystems with and without the file. -/
theorem C3_waiting_like_index_witness :
    fsWaitingFile waitingTemplatePath = some (.file "<p>please wait</p>") ∧
    waiting fsWaitingFile = .response ⟨200, .html, "<p>please wait</p>"⟩ ∧
    waiting fsEmpty = .response ⟨200, .html, waitingFallback⟩ :=
  ⟨by decide,
   (C3_waiting_like_index fsWaitingFile).2.2.1 "<p>please wait</p>" (by decide),
   (C3_waiting_like_index fsEmpty).2.2.2 rfl⟩

/-- C4: for every filesystem state, GET /health is handled and returns
status 200 with the JSON body exactly equal to the healthy payload. -/
theorem C4_health_always_ok (fs : FS) :
    app fs "/health" =
      .handled (.response ⟨200, .json, "\x7b\"status\": \"healthy\"\x7d"⟩) := rfl

/-- C5: for either template route, when the path exists but the text
read raises, the handler does not return the fallback (or any response):
the error propagates out of the handler. -/
theorem C5_read_error_propagates (fs : FS) (e : FsError) :
    (fs indexTemplatePath = some (.unreadable e) → index fs = .raised e) ∧
    (fs waitingTemplatePath = some (.unreadable e) → waiting fs = .raised e) := by
  constructor <;> intro h <;>
    simp [index, waiting, pathExists, readText, h]

/-- Witness for C5 at a permission-denied node under the index path. -/
theorem C5_read_error_propagates_witness :
    fsIndexPerm indexTemplatePath = some (.unreadable .permissionDenied) ∧
    index fsIndexPerm = .raised .permissionDenied :=
  ⟨by decide,
   (C5_read_error_propagates fsIndexPerm .permissionDenied).1 (by decide)⟩

/-- C6: both template routes are deterministic in the filesystem state:
any two states agreeing at the route's template path produce identical
results, so repeated calls under an unchanged state return identical
bodies. -/
theorem C6_idempotent (fs fs' : FS) :
    (fs indexTemplatePath = fs' indexTemplatePath → index fs = index fs') ∧
    (fs waitingTemplatePath = fs' waitingTemplatePath →
      waiting fs = waiting fs') := by
  constructor <;> intro h <;>
    simp [index, waiting, pathExists, readText, h]

/-- Witness for C6: two states agreeing at the index path (one with an
extra unrelated file) yield the same GET / result. -/
theorem C6_idempotent_witness :
    fsIndexFile indexTemplatePath = fsIndexFileExtra indexTemplatePath ∧
    index fsIndexFile = index fsIndexFileExtra :=
  ⟨by decide, (C6_idempotent fsIndexFile fsIndexFileExtra).1 (by decide)⟩

/-- C7: every GET whose path is not exactly one of /health, / or
/waiting matches none of the three routes and yields the framework's
default not-found behavior. -/
theorem C7_unknown_path_not_found (fs : FS) (p : String)
    (h1 : p ≠ "/health") (h2 : p ≠ "/") (h3 : p ≠ "/waiting") :
    matchRoute p = none ∧ app fs p = .notFound := by
  have hm : matchRoute p = none := by simp [matchRoute, h1, h2, h3]
  exact ⟨hm, by simp [app, hm]⟩

/-- Witness for C7 at the concrete unknown path /sessions. -/
theorem C7_unknown_path_not_found_witness :
    ("/sessions" ≠ "/health" ∧ "/sessions" ≠ "/" ∧ "/sessions" ≠ "/waiting") ∧
    matchRoute "/sessions" = none ∧ app fsEmpty "/sessions" = .notFound :=
  ⟨⟨by decide, by decide, by decide⟩,
   C7_unknown_path_not_found fsEmpty "/sessions"
     (by decide) (by decide) (by decide)⟩

/-- C8: the listening port comes from SESSION_MANAGER_PORT alone —
default 8080 when unset, the parsed value when set to a valid integer —
and the server binds on host 0.0.0.0. -/
theorem C8_port_selection (env : String → Option String) :
    (env "SESSION_MANAGER_PORT" = none →
      mainStartup env = some ⟨"0.0.0.0", 8080⟩) ∧
    (∀ s n, env "SESSION_MANAGER_PORT" = some s → pyInt s = some n →
      mainStartup env = some ⟨"0.0.0.0", n⟩) := by
  constructor
  · intro h
    simp [mainStartup, h]
    decide
  · intro s n hs hn
    simp [mainStartup, hs, hn]

/-- Witness for C8: an empty environment binds 0.0.0.0:8080, and an
environment setting the variable to "9001" binds 0.0.0.0:9001. -/
theorem C8_port_selection_witness :
    mainStartup (fun _ => none) = some ⟨"0.0.0.0", 8080⟩ ∧
    mainStartup (fun k =>
      if k = "SESSION_MANAGER_PORT" then some "9001" else none) =
      some ⟨"0.0.0.0", 9001⟩ :=
  ⟨(C8_port_selection (fun _ => none)).1 rfl,
   (C8_port_selection (fun k =>
      if k = "SESSION_MANAGER_PORT" then some "9001" else none)).2
     "9001" 9001 (by decide) (by decide)⟩

/-- C9: if a template path holds a directory, the existence check
passes and the handler raises IsADirectoryError instead of returning
either the file contents or the fallback string. -/
theorem C9_directory_raises (fs : FS) :
    (fs indexTemplatePath = some (.unreadable .isADirectory) →
      pathExists fs indexTemplatePath = true ∧
      index fs = .raised .isADirectory) ∧
    (fs waitingTemplatePath = some (.unreadable .isADirectory) →
      pathExists fs waitingTemplatePath = true ∧
      waiting fs = .raised .isADirectory) := by
  constructor <;> intro h <;>
    simp [index, waiting, pathExists, readText, h]

/-- Witness for C9 at a directory under the waiting template path. -/
theorem C9_directory_raises_witness :
    fsWaitingDir waitingTemplatePath = some (.unreadable .isADirectory) ∧
    pathExists fsWaitingDir waitingTemplatePath = true ∧
    waiting fsWaitingDir = .raised .isADirectory :=
  ⟨by decide, (C9_directory_raises fsWaitingDir).2 (by decide)⟩

/-- C10: when SESSION_MANAGER_PORT is set to a string that is not a
valid integer literal, the int conversion raises before any server is
bound, so startup produces no binding and no request is served. -/
theorem C10_bad_port_no_startup (env : String → Option String) (s : String)
    (hs : env "SESSION_MANAGER_PORT" = some s) (hp : pyInt s = none) :
    mainStartup env = none := by
  simp [mainStartup, hs, hp]

/-- Witness for C10 at the concrete value "not-a-number". -/
theorem C10_bad_port_no_startup_witness :
    pyInt "not-a-number" = none ∧
    mainStartup (fun k =>
      if k = "SESSION_MANAGER_PORT" then some "not-a-number" else none) =
      none :=
  ⟨by decide,
   C10_bad_port_no_startup
     (fun k => if k = "SESSION_MANAGER_PORT" then some "not-a-number" else none)
     "not-a-number" rfl (by decide)⟩

end SessionManager
